import Mathlib

/-!
# TextbookSaver — verification of the quota, aggregator and billing logic

Shallow embedding of `src/textbook_app.py`. Python `datetime` values are
modelled as a day number plus a time-of-day number (lexicographic order);
Python `float` prices are modelled as rationals (only comparisons and one
subtraction occur, on decimal inputs); fallible code (attribute access on
`None`) returns `Option`. The database session is modelled by explicit
state passing: each mutating method returns the updated record.
-/

/-- A UTC timestamp: the calendar date (as a day number) together with the
time of day. `datetime.date()` comparison is comparison of `day`;
full `datetime` comparison is lexicographic. -/
structure DateTime where
  day : Nat
  tod : Nat
deriving DecidableEq

/-- `DateTime.lt a b` models the Python comparison `a < b` on `datetime`
values (lexicographic on date, then time of day). -/
def DateTime.lt (a b : DateTime) : Bool :=
  a.day < b.day || (a.day == b.day && a.tod < b.tod)

/-- `d.addDays n` models `d + timedelta(days=n)`. -/
def DateTime.addDays (d : DateTime) (n : Nat) : DateTime :=
  ⟨d.day + n, d.tod⟩

/-- The `User` model (`textbook_app.py` lines 41-50): nullable columns are
`Option`; `searches_today` is a Python `int`. -/
structure User where
  email : String
  password_hash : String
  is_premium : Bool
  stripe_customer_id : Option String
  premium_expires : Option DateTime
  searches_today : Int
  last_search_reset : DateTime
  created_at : DateTime
deriving DecidableEq

/-- `User.can_search` (lines 58-71). Returns the boolean result
(`none` models the `TypeError` raised by `None > datetime` when
`is_premium` is set but `premium_expires` is `NULL`) together with the
committed state. The counter reset at the top of the method is committed
before the premium comparison runs, so the state component is the
post-reset record even on the raising path. -/
def can_search (u : User) (now : DateTime) : Option Bool × User :=
  let u' := if u.last_search_reset.day < now.day
            then { u with searches_today := 0, last_search_reset := now }
            else u
  let result : Option Bool :=
    if u'.is_premium then
      match u'.premium_expires with
      | none => none
      | some e =>
        if DateTime.lt now e then some true
        else some (decide (u'.searches_today < 5))
    else some (decide (u'.searches_today < 5))
  (result, u')

/-- `User.increment_search` (lines 73-77): increments the counter unless
the account is premium with an unexpired subscription. `none` models the
`TypeError` on `None > datetime`. -/
def increment_search (u : User) (now : DateTime) : Option User :=
  if u.is_premium then
    match u.premium_expires with
    | none => none
    | some e =>
      if DateTime.lt now e then some u
      else some { u with searches_today := u.searches_today + 1 }
  else some { u with searches_today := u.searches_today + 1 }

/-- The spec's "active premium" condition: premium flag set and expiry
strictly in the future (`is_premium and premium_expires > now` where the
expiry is present). -/
def premium_active (u : User) (now : DateTime) : Bool :=
  u.is_premium && (match u.premium_expires with
    | some e => DateTime.lt now e
    | none => false)

/-- The reachability invariant of accounts: a set premium flag implies a
present expiry timestamp. -/
def premium_implies_expiry (u : User) : Prop :=
  u.is_premium = true → u.premium_expires.isSome = true

instance (u : User) : Decidable (premium_implies_expiry u) := by
  unfold premium_implies_expiry
  infer_instance

/-- An offer dictionary as built by the marketplace clients. The eBay
client never sets `is_search_link` (a missing key reads back falsy, hence
`false`); the Amazon client sets no `shipping`/`image` keys, hence
`Option`. -/
structure Offer where
  source : String
  price : ℚ
  title : String
  condition : String
  url : String
  shipping : Option String
  image : Option String
  is_search_link : Bool
deriving DecidableEq

/-- Python truthiness of an optional string (`None` and `""` are falsy),
used for `if not self.ebay_api_key`, `if self.amazon_tag`, `isbn if isbn
else query`. -/
def truthy : Option String → Bool
  | none => false
  | some s => decide (s ≠ "")

/-- One entry of `findItemsAdvancedResponse...item` as far as
`search_ebay` reads it. A field is `none` when the JSON path is absent
(or, for `currentPrice`, absent or not `float`-parsable). -/
structure EbayItem where
  currentPrice : Option ℚ
  title : Option String
  viewItemURL : Option String
  conditionDisplayName : Option String
  shippingServiceCost : Option String
  galleryURL : Option String
deriving DecidableEq

/-- The per-listing `try` body of `search_ebay` (lines 130-142): the
listing is dropped (`KeyError`/`IndexError`/`ValueError` → `continue`)
exactly when the price, title or URL path is missing; condition defaults
to `"Used"`, shipping to `"0"`, image to `""`. -/
def parse_ebay_item (it : EbayItem) : Option Offer :=
  match it.currentPrice, it.title, it.viewItemURL with
  | some p, some t, some u =>
    some { source := "eBay", price := p, title := t,
           condition := it.conditionDisplayName.getD "Used",
           url := u,
           shipping := some (it.shippingServiceCost.getD "0"),
           image := some (it.galleryURL.getD ""),
           is_search_link := false }
  | _, _, _ => none

/-- `BookPriceFinder.search_ebay` (lines 98-147). The network interaction
is abstracted into `resp`: `none` models a total request failure (network
error, timeout, or a body on which `.json()`/the path lookups raise) —
the outer `except` turns it into `[]`; `some items` models a response
whose item list was extracted. Only the first 5 items are parsed. -/
def search_ebay (api_key : Option String) (resp : Option (List EbayItem)) : List Offer :=
  if truthy api_key = false then []
  else
    match resp with
    | none => []
    | some items => (items.take 5).filterMap parse_ebay_item

/-- str.replace(' ', '+') on the search term (single-character pattern,
hence a character map). -/
def plus_encode (s : String) : String :=
  ⟨s.data.map fun c => if c = ' ' then '+' else c⟩

/-- The nested `build_amazon_link` helper (lines 160-165): search path
with the plus-encoded term, then `&tag=` only when the affiliate tag is
configured (truthy). -/
def build_amazon_link (amazon_tag : Option String) (search_term : String) : String :=
  let base_url := "https://www.amazon.com/s"
  let params := "?k=" ++ plus_encode search_term
  let params := if truthy amazon_tag then params ++ "&tag=" ++ amazon_tag.getD "" else params
  base_url ++ params

/-- `BookPriceFinder.search_amazon` (lines 149-175): always one synthetic
offer, price 0, `is_search_link` set, title echoing the query, URL built
from the ISBN when truthy else the query. -/
def search_amazon (amazon_tag : Option String) (query isbn : String) : List Offer :=
  let search_term := if truthy (some isbn) then isbn else query
  [{ source := "Amazon", price := 0,
     title := "Search results for: " ++ query,
     condition := "Various",
     url := build_amazon_link amazon_tag search_term,
     shipping := none, image := none,
     is_search_link := true }]

/-- The ordering used by `priced_results.sort(key=lambda x: x['price'])`. -/
def price_le (a b : Offer) : Prop := a.price ≤ b.price

instance : DecidableRel price_le := fun a b =>
  inferInstanceAs (Decidable (a.price ≤ b.price))

instance : IsTotal Offer price_le := ⟨fun a b => le_total a.price b.price⟩

instance : IsTrans Offer price_le := ⟨fun _ _ _ => le_trans⟩

/-- The partition-sort-concatenate tail of `search_all` (lines 189-195):
priced offers (price > 0) stably sorted ascending by price, then the
search-link offers. Python's stable `list.sort` is modelled by insertion
sort with the non-strict order, which is stable for it. -/
def combine_results (all_results : List Offer) : List Offer :=
  let priced_results := all_results.filter fun r => decide (0 < r.price)
  let search_links := all_results.filter fun r => r.is_search_link
  (priced_results.insertionSort price_le) ++ search_links

/-- `BookPriceFinder.search_all` (lines 177-195): eBay results then the
Amazon result, combined. -/
def search_all (api_key : Option String) (resp : Option (List EbayItem))
    (amazon_tag : Option String) (query isbn : String) : List Offer :=
  combine_results (search_ebay api_key resp ++ search_amazon amazon_tag query isbn)

/-- Python `max` over a non-empty list (the `[]` case is unreachable
behind the `if priced` guard). -/
def list_max : List ℚ → ℚ
  | [] => 0
  | x :: xs => xs.foldl max x

/-- Python `min` over a non-empty list. -/
def list_min : List ℚ → ℚ
  | [] => 0
  | x :: xs => xs.foldl min x

/-- The savings computation in the `search` handler (lines 223-233):
only computed when more than one result came back, and only over the
priced subset. -/
def savings (results : List Offer) : ℚ :=
  if 1 < results.length then
    let priced := results.filter fun r => decide (0 < r.price)
    if priced.isEmpty then 0
    else list_max (priced.map fun r => r.price) - list_min (priced.map fun r => r.price)
  else 0

/-- The remaining-quota indicator of the search response. -/
inductive Quota where
  | unlimited
  | count (n : Int)
deriving DecidableEq

/-- The `searches_remaining` field of the response (line 238):
`max(0, 5 - searches_today)` unless `is_premium` is set — the expiry is
not consulted here. -/
def searches_remaining (u : User) : Quota :=
  if u.is_premium then Quota.unlimited
  else Quota.count (max 0 (5 - u.searches_today))

/-- Outcome of the `/search` handler. -/
inductive SearchOutcome where
  | http403
  | http400
  | raised
  | ok (results : List Offer) (savings_amt : ℚ) (remaining : Quota)
deriving DecidableEq

/-- The `/search` handler (lines 202-239): quota check (403 on failure),
input validation (400 when query and ISBN are both empty after
stripping; `query`/`isbn` here stand for the stripped values), the
aggregator call, the counter increment, then the response. `raised`
marks a `TypeError` escaping `can_search`/`increment_search`. -/
def search_handler (u : User) (now : DateTime) (query isbn : String)
    (api_key : Option String) (resp : Option (List EbayItem))
    (amazon_tag : Option String) : SearchOutcome × User :=
  match can_search u now with
  | (none, u1) => (SearchOutcome.raised, u1)
  | (some false, u1) => (SearchOutcome.http403, u1)
  | (some true, u1) =>
    if query = "" ∧ isbn = "" then (SearchOutcome.http400, u1)
    else
      let results := search_all api_key resp amazon_tag query isbn
      match increment_search u1 now with
      | none => (SearchOutcome.raised, u1)
      | some u2 =>
        (SearchOutcome.ok results (savings results) (searches_remaining u2), u2)

/-- The `signup` handler's record creation (lines 251-254) with the
column defaults of the model (lines 41-50). -/
def signup_user (email pw_hash : String) (now : DateTime) : User :=
  { email := email, password_hash := pw_hash, is_premium := false,
    stripe_customer_id := none, premium_expires := none,
    searches_today := 0, last_search_reset := now, created_at := now }

/-- The `payment_success` handler's mutation (lines 308-309): premium
flag set, expiry 30 days from now. -/
def payment_success (u : User) (now : DateTime) : User :=
  { u with is_premium := true, premium_expires := some (now.addDays 30) }

/-- A verified Stripe webhook event as read by the handler. -/
structure StripeEvent where
  event_type : String
  customer_email : String
deriving DecidableEq

/-- `User.query.filter_by(email=...).first()` followed by
`user.is_premium = False` (lines 331-335): clear the flag on the first
account with the given email, touching nothing else. -/
def clear_premium_first (email : String) : List User → List User
  | [] => []
  | u :: rest =>
    if u.email = email then { u with is_premium := false } :: rest
    else u :: clear_premium_first email rest

/-- The event dispatch of `stripe_webhook` (lines 329-337) after
signature verification, acting on the account table. -/
def stripe_webhook (users : List User) (ev : StripeEvent) : List User :=
  if ev.event_type = "customer.subscription.deleted" then
    clear_premium_first ev.customer_email users
  else users

/-! ## Concrete accounts and inputs used by the witness theorems -/

/-- A premium account with an unexpired subscription and an exhausted
counter, checked on the same calendar day as its last reset. -/
def user_prem : User :=
  { email := "prem@example.com", password_hash := "h1", is_premium := true,
    stripe_customer_id := some "cus_1", premium_expires := some ⟨20, 0⟩,
    searches_today := 7, last_search_reset := ⟨10, 3⟩, created_at := ⟨1, 0⟩ }

/-- A free account below the quota, same calendar day. -/
def user_free : User :=
  { email := "free@example.com", password_hash := "h2", is_premium := false,
    stripe_customer_id := none, premium_expires := none,
    searches_today := 2, last_search_reset := ⟨10, 3⟩, created_at := ⟨1, 0⟩ }

/-- A free account that has used its 5 searches today. -/
def user_free5 : User :=
  { user_free with email := "five@example.com", searches_today := 5 }

/-- An account whose premium flag is set but whose expiry (day 20) has
passed at day 25. -/
def user_expired : User :=
  { user_prem with
      email := "exp@example.com", searches_today := 2, last_search_reset := ⟨25, 1⟩ }

/-- A timestamp on the same calendar day as the above resets (day 10). -/
def now_same_day : DateTime := ⟨10, 5⟩

/-- A timestamp several days later (day 25), past `user_prem`'s expiry. -/
def now_later : DateTime := ⟨25, 5⟩

/-! ## Theorems -/

/-- Helper: the state committed by `can_search` is the input account with
the counter reset applied exactly when the stored reset date is strictly
before the current date. -/
theorem can_search_snd_eq (u : User) (now : DateTime) :
    (can_search u now).2 =
      if u.last_search_reset.day < now.day
      then { u with searches_today := 0, last_search_reset := now }
      else u := rfl

/-- Helper: whenever `can_search` answers `false`, no counter reset can
have happened (a reset forces the counter to 0 < 5, and every branch then
answers `true` or raises), so the committed state is the input state. -/
theorem can_search_false_frame (u : User) (now : DateTime)
    (h : (can_search u now).1 = some false) : (can_search u now).2 = u := by
  by_cases hreset : u.last_search_reset.day < now.day
  · exfalso
    rcases hq : u.is_premium
    · simp [can_search, hreset, hq] at h
    · rcases hep : u.premium_expires with _ | e
      · simp [can_search, hreset, hq, hep] at h
      · by_cases hlt : DateTime.lt now e = true
        · simp [can_search, hreset, hq, hep, hlt] at h
        · simp [can_search, hreset, hq, hep, hlt] at h
  · simp [can_search, hreset]

/-- C1: for every (reachable) account, `can_search` answers `true`
unconditionally when the premium flag is set and the expiry is strictly
in the future — even with `searches_today ≥ 5` — and for every other
account it answers `true` iff the counter consulted by the check (the
committed, post-reset counter) is strictly below 5. The hypothesis is the
reachability invariant established for C10 (a set premium flag comes with
a present expiry; without it the comparison raises instead of returning). -/
theorem C1_can_search_quota (u : User) (now : DateTime)
    (hWF : premium_implies_expiry u) :
    (premium_active u now = true → (can_search u now).1 = some true) ∧
    (premium_active u now = false →
      (can_search u now).1 = some (decide ((can_search u now).2.searches_today < 5))) := by
  by_cases hreset : u.last_search_reset.day < now.day <;>
    rcases hq : u.is_premium <;>
    rcases hep : u.premium_expires with _ | e
  · constructor
    · intro hact
      simp [premium_active, hq] at hact
    · intro _
      simp [can_search, hreset, hq, hep]
  · constructor
    · intro hact
      simp [premium_active, hq] at hact
    · intro _
      simp [can_search, hreset, hq, hep]
  · exact absurd (hWF (by simp [hq])) (by simp [hep])
  · by_cases hlt : DateTime.lt now e = true
    · constructor
      · intro _
        simp [can_search, hreset, hq, hep, hlt]
      · intro hact
        simp [premium_active, hq, hep, hlt] at hact
    · constructor
      · intro hact
        simp [premium_active, hq, hep, hlt] at hact
      · intro _
        simp [can_search, hreset, hq, hep, hlt]
  · constructor
    · intro hact
      simp [premium_active, hq] at hact
    · intro _
      simp [can_search, hreset, hq, hep]
  · constructor
    · intro hact
      simp [premium_active, hq] at hact
    · intro _
      simp [can_search, hreset, hq, hep]
  · exact absurd (hWF (by simp [hq])) (by simp [hep])
  · by_cases hlt : DateTime.lt now e = true
    · constructor
      · intro _
        simp [can_search, hreset, hq, hep, hlt]
      · intro hact
        simp [premium_active, hq, hep, hlt] at hact
    · constructor
      · intro hact
        simp [premium_active, hq, hep, hlt] at hact
      · intro _
        simp [can_search, hreset, hq, hep, hlt]

/-- Witness for C1: the active-premium account with counter 7 is allowed,
and the free account with counter 2 (no reset pending) gets
`searches_today < 5`, i.e. `true`. -/
theorem C1_witness :
    (can_search user_prem now_same_day).1 = some true ∧
    (can_search user_free now_same_day).1 = some true := by
  constructor
  · exact (C1_can_search_quota user_prem now_same_day (by decide)).1 (by decide)
  · have h := (C1_can_search_quota user_free now_same_day (by decide)).2 (by decide)
    rw [h]
    decide

/-- C2: a `can_search` call commits the counter reset (counter to 0,
reset stamp to `now`) exactly when the stored reset date is strictly
before the current date, independently of the counter's prior value and
of premium status; when the dates are equal (or the stamp is not in the
past) both fields are left unchanged. -/
theorem C2_can_search_reset (u : User) (now : DateTime) :
    (can_search u now).2 =
      if u.last_search_reset.day < now.day
      then { u with searches_today := 0, last_search_reset := now }
      else u := rfl

/-- C7 counterexample: `user_expired` has its premium flag set but its
expiry (day 20) is past at `now_later` (day 25), so it is not active
premium; the claim then demands the numeric count
`max(0, 5 − 2) = 3`, but the response field (line 238 tests only
`is_premium`, not the expiry) is the `unlimited` sentinel. -/
theorem C7_counterexample :
    user_expired.is_premium = true ∧
    premium_active user_expired now_later = false ∧
    searches_remaining user_expired = Quota.unlimited ∧
    Quota.unlimited ≠ Quota.count (max 0 (5 - user_expired.searches_today)) := by
  refine ⟨rfl, by decide, rfl, by decide⟩

/-- C7 amended: the remaining-quota field is the `unlimited` sentinel
exactly when the premium *flag* is set — the expiry is not consulted, so
an account whose premium has lapsed still receives the sentinel — and
every account with the flag clear receives `max(0, 5 − searches_today)`. -/
theorem C7_searches_remaining (u : User) :
    (searches_remaining u = Quota.unlimited ↔ u.is_premium = true) ∧
    (u.is_premium = false →
      searches_remaining u = Quota.count (max 0 (5 - u.searches_today))) := by
  rcases hq : u.is_premium
  · constructor
    · constructor
      · intro h
        simp [searches_remaining, hq] at h
      · intro h
        simp [hq] at h
    · intro _
      simp [searches_remaining, hq]
  · constructor
    · constructor
      · intro _
        rfl
      · intro _
        simp [searches_remaining, hq]
    · intro h
      simp [hq] at h

/-- Witness for C7 amended: the free account with counter 2 receives the
numeric count 3. -/
theorem C7_witness :
    searches_remaining user_free = Quota.count 3 := by
  have h := (C7_searches_remaining user_free).2 rfl
  rw [h]
  decide

/-- C8: whenever the `/search` handler responds 403, the account record
it leaves behind is exactly the record it started from: the increment is
never reached, and the quota check can only have answered `false` if no
day-boundary reset fired (a reset would have zeroed the counter and made
the check succeed). -/
theorem C8_http403_frame (u : User) (now : DateTime) (query isbn : String)
    (api_key : Option String) (resp : Option (List EbayItem)) (amazon_tag : Option String)
    (h : (search_handler u now query isbn api_key resp amazon_tag).1 = SearchOutcome.http403) :
    (search_handler u now query isbn api_key resp amazon_tag).2 = u := by
  rcases hc : can_search u now with ⟨ob, u1⟩
  rcases ob with _ | b
  · simp [search_handler, hc] at h
  · rcases b
    · have h2 : (can_search u now).2 = u :=
        can_search_false_frame u now (by rw [hc])
      rw [hc] at h2
      simp at h2
      simp [search_handler, hc, h2]
    · by_cases hq : query = "" ∧ isbn = ""
      · simp [search_handler, hc, hq] at h
      · rcases hi : increment_search u1 now with _ | u2 <;>
          simp [search_handler, hc, hq, hi] at h

/-- Witness for C8: the free account with counter 5, checked on the same
day, is refused with 403 and left untouched. -/
theorem C8_witness :
    (search_handler user_free5 now_same_day "q" "" none none none).2 = user_free5 :=
  C8_http403_frame user_free5 now_same_day "q" "" none none none (by decide)

/-- A priced eBay-shaped offer at 12.00, used in the savings example. -/
def offer1 : Offer :=
  { source := "eBay", price := 12, title := "A", condition := "Used",
    url := "u1", shipping := some "0", image := some "", is_search_link := false }

/-- A priced offer at 8.50. -/
def offer2 : Offer := { offer1 with price := 8.5, title := "B" }

/-- A priced offer at 20.00. -/
def offer3 : Offer := { offer1 with price := 20, title := "C" }

/-- A lone priced offer at 9.99. -/
def offer_single : Offer := { offer1 with price := 9.99, title := "S" }

/-- A price-0 search-link offer, as the Amazon client produces. -/
def offer_link : Offer :=
  { offer1 with source := "Amazon", price := 0, is_search_link := true }

/-- Helper: unconditional formula for the handler's savings computation:
the `len(results) > 1` guard never changes the value, because with at
most one result the priced subset has at most one element and
`max − min` degenerates to 0. -/
theorem savings_eq_formula (results : List Offer) :
    savings results =
      if (results.filter fun r => decide (0 < r.price)).isEmpty then 0
      else
        list_max ((results.filter fun r => decide (0 < r.price)).map fun r => r.price) -
          list_min ((results.filter fun r => decide (0 < r.price)).map fun r => r.price) := by
  rcases results with _ | ⟨a, _ | ⟨b, rest⟩⟩
  · rfl
  · by_cases hp : (0 : ℚ) < a.price
    · simp [savings, hp, list_max, list_min]
    · simp [savings, hp]
  · have hlen : 1 < (a :: b :: rest).length := by
      simp [List.length_cons]
    simp only [savings, if_pos hlen]

/-- C4: the savings figure equals `max(price) − min(price)` over the
offers with positive price whenever that subset is non-empty, and is 0
when the subset is empty or a singleton; in particular the priced sets
{12.00, 8.50, 20.00}, {9.99} and {} yield 11.50, 0, 0. -/
theorem C4_savings (results : List Offer) :
    (savings results =
      if (results.filter fun r => decide (0 < r.price)).isEmpty then 0
      else
        list_max ((results.filter fun r => decide (0 < r.price)).map fun r => r.price) -
          list_min ((results.filter fun r => decide (0 < r.price)).map fun r => r.price)) ∧
    ((results.filter fun r => decide (0 < r.price)).length = 1 → savings results = 0) ∧
    savings [offer1, offer2, offer3] = 23/2 ∧
    savings [offer_single] = 0 ∧
    savings ([] : List Offer) = 0 := by
  refine ⟨savings_eq_formula results, ?_, ?_, ?_, by norm_num [savings]⟩
  · intro hlen
    rcases List.length_eq_one.mp hlen with ⟨r, hr⟩
    rw [savings_eq_formula results, hr]
    simp [list_max, list_min]
  · norm_num [savings, offer1, offer2, offer3, list_max, list_min]
  · norm_num [savings, offer_single, offer1]

/-- Witness for C4: on `[offer1, offer_link]` the priced subset is the
singleton `[offer1]`, and the savings figure is 0. -/
theorem C4_witness : savings [offer1, offer_link] = 0 :=
  (C4_savings [offer1, offer_link]).2.1
    (by norm_num [offer1, offer_link])

/-- Helper: insertion sort with the non-strict price order is stable —
for every price, the offers at that price appear in the output in
exactly their input order. -/
theorem insertionSort_stable_filter (l : List Offer) (p : ℚ) :
    (l.insertionSort price_le).filter (fun o => decide (o.price = p)) =
      l.filter (fun o => decide (o.price = p)) := by
  have hpair : (l.filter (fun o => decide (o.price = p))).Pairwise price_le := by
    refine List.pairwise_of_forall_mem_list ?_
    intro a ha b hb
    have h1 : a.price = p := by simpa using (List.mem_filter.mp ha).2
    have h2 : b.price = p := by simpa using (List.mem_filter.mp hb).2
    show a.price ≤ b.price
    rw [h1, h2]
  have hsub : List.Sublist (l.filter fun o => decide (o.price = p)) l := List.filter_sublist l
  have h1 : List.Sublist (l.filter fun o => decide (o.price = p)) (l.insertionSort price_le) :=
    List.sublist_insertionSort hpair hsub
  have h15 : (l.filter (fun o => decide (o.price = p))).filter (fun o => decide (o.price = p)) =
      l.filter (fun o => decide (o.price = p)) := by
    apply List.filter_eq_self.mpr
    intro a ha
    exact (List.mem_filter.mp ha).2
  have h2 : List.Sublist (l.filter fun o => decide (o.price = p))
      ((l.insertionSort price_le).filter fun o => decide (o.price = p)) :=
    h15 ▸ h1.filter (fun o => decide (o.price = p))
  have h3 : List.Perm ((l.insertionSort price_le).filter fun o => decide (o.price = p))
      (l.filter fun o => decide (o.price = p)) :=
    (List.perm_insertionSort price_le l).filter (fun o => decide (o.price = p))
  exact (h2.eq_of_length h3.length_eq.symm).symm

/-- C3: for every pair of client result lists, in either concatenation
order, the aggregator output is the positively priced offers in stable
non-decreasing price order followed by the search-link-flagged offers in
input order; and `search_all` is exactly this combination applied to the
two clients' outputs. -/
theorem C3_aggregator_ordering (l1 l2 : List Offer) :
    (∀ api_key resp amazon_tag query isbn,
      search_all api_key resp amazon_tag query isbn =
        combine_results (search_ebay api_key resp ++ search_amazon amazon_tag query isbn)) ∧
    ∃ sortedPriced : List Offer,
      combine_results (l1 ++ l2) =
        sortedPriced ++ (l1 ++ l2).filter (fun r => r.is_search_link) ∧
      List.Sorted price_le sortedPriced ∧
      List.Perm sortedPriced ((l1 ++ l2).filter fun r => decide (0 < r.price)) ∧
      ∀ p : ℚ, sortedPriced.filter (fun o => decide (o.price = p)) =
        ((l1 ++ l2).filter fun r => decide (0 < r.price)).filter
          (fun o => decide (o.price = p)) := by
  constructor
  · exact fun _ _ _ _ _ => rfl
  · refine ⟨((l1 ++ l2).filter fun r => decide (0 < r.price)).insertionSort price_le,
      ?_, ?_, ?_, ?_⟩
    · rfl
    · exact List.sorted_insertionSort price_le _
    · exact List.perm_insertionSort price_le _
    · exact fun p => insertionSort_stable_filter _ p

/-- C5: the auction client degrades instead of failing: a total request
failure yields `[]` (for any key); at most 5 offers ever come back; with
a usable key and a response the first 5 listings are parsed
individually; a listing whose numeric price path is missing or
unparsable is dropped by itself (its neighbours survive, as the
good/bad/good conjunct shows); and absent condition and shipping fields
default to `"Used"` and `"0"`. -/
theorem C5_ebay_fail_soft :
    (∀ api_key, search_ebay api_key none = []) ∧
    (∀ api_key resp, (search_ebay api_key resp).length ≤ 5) ∧
    (∀ api_key items, truthy api_key = true →
      search_ebay api_key (some items) = (items.take 5).filterMap parse_ebay_item) ∧
    (∀ it, it.currentPrice = none → parse_ebay_item it = none) ∧
    (∀ it o, parse_ebay_item it = some o →
      (it.conditionDisplayName = none → o.condition = "Used") ∧
      (it.shippingServiceCost = none → o.shipping = some "0") ∧
      (it.galleryURL = none → o.image = some "")) ∧
    (∀ api_key g1 bad g2 o1 o2, truthy api_key = true →
      parse_ebay_item g1 = some o1 → parse_ebay_item bad = none →
      parse_ebay_item g2 = some o2 →
      search_ebay api_key (some [g1, bad, g2]) = [o1, o2]) := by
  refine ⟨?_, ?_, ?_, ?_, ?_, ?_⟩
  · intro k
    rcases h : truthy k <;> simp [search_ebay, h]
  · intro k resp
    rcases h : truthy k
    · simp [search_ebay, h]
    · rcases resp with _ | items
      · simp [search_ebay, h]
      · simp only [search_ebay, h]
        refine le_trans (List.length_filterMap_le _ _) ?_
        exact List.length_take_le 5 items
  · intro k items h
    simp [search_ebay, h]
  · intro it h
    rcases it with ⟨cp, tt, uu, cc, ss, gg⟩
    simp only at h
    subst h
    rfl
  · intro it o h
    rcases it with ⟨cp, tt, uu, cc, ss, gg⟩
    rcases cp with _ | pv
    · exact absurd h (by simp [parse_ebay_item])
    rcases tt with _ | tv
    · exact absurd h (by simp [parse_ebay_item])
    rcases uu with _ | uv
    · exact absurd h (by simp [parse_ebay_item])
    simp only [parse_ebay_item, Option.some.injEq] at h
    subst h
    refine ⟨fun hn => ?_, fun hn => ?_, fun hn => ?_⟩ <;> (subst hn; rfl)
  · intro k g1 bad g2 o1 o2 hk h1 hb h2
    simp [search_ebay, hk, List.filterMap_cons, h1, hb, h2]

/-- A well-formed eBay listing used by the C5 witness. -/
def item_good1 : EbayItem :=
  { currentPrice := some 10, title := some "Linear Algebra",
    viewItemURL := some "https://ebay.example/1",
    conditionDisplayName := none, shippingServiceCost := none, galleryURL := none }

/-- A listing whose price path is missing, used by the C5 witness. -/
def item_bad : EbayItem :=
  { item_good1 with currentPrice := none, title := some "Broken" }

/-- A second well-formed listing, used by the C5 witness. -/
def item_good2 : EbayItem :=
  { item_good1 with
      currentPrice := some 14, title := some "Calculus",
      conditionDisplayName := some "Good", shippingServiceCost := some "3.99" }

/-- The offer parsed from `item_good1` (defaults applied). -/
def offer_good1 : Offer :=
  { source := "eBay", price := 10, title := "Linear Algebra", condition := "Used",
    url := "https://ebay.example/1", shipping := some "0", image := some "",
    is_search_link := false }

/-- The offer parsed from `item_good2`. -/
def offer_good2 : Offer :=
  { offer_good1 with
      price := 14, title := "Calculus", condition := "Good", shipping := some "3.99" }

/-- Witness for C5: a good/broken/good response under a configured key
parses to exactly the two good offers, with the first one's condition
and shipping defaulted. -/
theorem C5_witness :
    search_ebay (some "EBAY-KEY") (some [item_good1, item_bad, item_good2]) =
      [offer_good1, offer_good2] ∧
    (search_ebay (some "EBAY-KEY") (some [item_good1, item_bad, item_good2])).length ≤ 5 ∧
    search_ebay (some "EBAY-KEY") none = [] := by
  refine ⟨?_, ?_, ?_⟩
  · exact C5_ebay_fail_soft.2.2.2.2.2 (some "EBAY-KEY") item_good1 item_bad item_good2
      offer_good1 offer_good2 (by decide) rfl rfl rfl
  · exact C5_ebay_fail_soft.2.1 (some "EBAY-KEY") (some [item_good1, item_bad, item_good2])
  · exact C5_ebay_fail_soft.1 (some "EBAY-KEY")

/-- C6: the retail client always yields exactly one synthetic offer —
price 0, search-link flag set, title echoing the free-text query, URL
built from the ISBN when one is given (else the query); a configured tag
is appended as an `&tag=` parameter and nothing else changes; and for
query `"Calculus Early Transcendentals"` with no tag the URL contains
`k=Calculus+Early+Transcendentals` and no `tag=` parameter. -/
theorem C6_amazon_search_link :
    (∀ amazon_tag query isbn, (search_amazon amazon_tag query isbn).length = 1) ∧
    (∀ amazon_tag query isbn o, search_amazon amazon_tag query isbn = [o] →
      o.price = 0 ∧ o.is_search_link = true ∧
      o.title = "Search results for: " ++ query ∧
      o.url = build_amazon_link amazon_tag (if truthy (some isbn) then isbn else query)) ∧
    (∀ tag search_term, truthy (some tag) = true →
      build_amazon_link (some tag) search_term =
        build_amazon_link none search_term ++ "&tag=" ++ tag) ∧
    List.IsInfix ("k=Calculus+Early+Transcendentals").data
      (build_amazon_link none "Calculus Early Transcendentals").data ∧
    ¬ List.IsInfix ("tag=").data
      (build_amazon_link none "Calculus Early Transcendentals").data := by
  refine ⟨fun _ _ _ => rfl, ?_, ?_, by decide, by decide⟩
  · intro amazon_tag query isbn o h
    simp only [search_amazon, List.cons.injEq, and_true] at h
    subst h
    exact ⟨rfl, rfl, rfl, rfl⟩
  · intro tag search_term htag
    have htag' : ¬ tag = "" := by simpa [truthy] using htag
    simp [build_amazon_link, truthy, htag', String.append_assoc]

/-- The synthetic offer the retail client produces for the example query
with no ISBN and no configured tag. -/
def amazon_offer_ex : Offer :=
  { source := "Amazon", price := 0,
    title := "Search results for: " ++ "Calculus Early Transcendentals",
    condition := "Various",
    url := build_amazon_link none "Calculus Early Transcendentals",
    shipping := none, image := none, is_search_link := true }

/-- Witness for C6: the lone offer for query `"Calculus Early
Transcendentals"`, no ISBN, no tag, echoes the query and links to the
plus-encoded search URL; and a configured tag is appended verbatim. -/
theorem C6_witness :
    amazon_offer_ex.price = 0 ∧ amazon_offer_ex.is_search_link = true ∧
    amazon_offer_ex.title = "Search results for: " ++ "Calculus Early Transcendentals" ∧
    amazon_offer_ex.url = build_amazon_link none
      (if truthy (some "") then "" else "Calculus Early Transcendentals") ∧
    build_amazon_link (some "tbsaver-20") "Calculus Early Transcendentals" =
      build_amazon_link none "Calculus Early Transcendentals" ++ "&tag=" ++ "tbsaver-20" := by
  have hEq : search_amazon none "Calculus Early Transcendentals" "" = [amazon_offer_ex] := rfl
  obtain ⟨h1, h2, h3, h4⟩ :=
    C6_amazon_search_link.2.1 none "Calculus Early Transcendentals" "" amazon_offer_ex hEq
  exact ⟨h1, h2, h3, h4,
    C6_amazon_search_link.2.2.1 "tbsaver-20" "Calculus Early Transcendentals" (by decide)⟩

/-- C9: a verified webhook event of the cancellation type naming an
existing account clears exactly that (first-matching) account's premium
flag — its expiry, counters and every other field are carried over
unchanged, as are all other accounts — and an event of any other type
changes nothing. -/
theorem C9_webhook_cancellation (ev : StripeEvent) :
    (∀ users, ev.event_type ≠ "customer.subscription.deleted" →
      stripe_webhook users ev = users) ∧
    (∀ (pre : List User) (u : User) (post : List User),
      ev.event_type = "customer.subscription.deleted" →
      u.email = ev.customer_email →
      (∀ v ∈ pre, v.email ≠ ev.customer_email) →
      stripe_webhook (pre ++ u :: post) ev =
        pre ++ { u with is_premium := false } :: post) ∧
    (∀ users, ev.event_type = "customer.subscription.deleted" →
      (∀ v ∈ users, v.email ≠ ev.customer_email) →
      stripe_webhook users ev = users) := by
  refine ⟨?_, ?_, ?_⟩
  · intro users h
    simp [stripe_webhook, h]
  · intro pre u post htype hu hpre
    simp only [stripe_webhook, htype, if_true]
    induction pre with
    | nil => simp [clear_premium_first, hu]
    | cons a tl ih =>
      have ha : ¬ a.email = ev.customer_email := hpre a (List.mem_cons_self a tl)
      simp only [List.cons_append, clear_premium_first, if_neg ha]
      exact congrArg (List.cons a) (ih fun v hv => hpre v (List.mem_cons_of_mem a hv))
  · intro users htype hus
    simp only [stripe_webhook, htype, if_true]
    induction users with
    | nil => rfl
    | cons a tl ih =>
      have ha : ¬ a.email = ev.customer_email := hus a (List.mem_cons_self a tl)
      rw [clear_premium_first, if_neg ha, ih fun v hv => hus v (List.mem_cons_of_mem a hv)]

/-- A cancellation event naming `user_prem`'s email. -/
def ev_cancel : StripeEvent :=
  { event_type := "customer.subscription.deleted",
    customer_email := "prem@example.com" }

/-- An unrelated event type. -/
def ev_other : StripeEvent :=
  { ev_cancel with event_type := "invoice.payment_succeeded" }

/-- Witness for C9: on the table `[user_free, user_prem]` the
cancellation event clears only `user_prem`'s flag, and the unrelated
event leaves the table unchanged. -/
theorem C9_witness :
    stripe_webhook [user_free, user_prem] ev_cancel =
      [user_free, { user_prem with is_premium := false }] ∧
    stripe_webhook [user_free, user_prem] ev_other = [user_free, user_prem] := by
  constructor
  · exact (C9_webhook_cancellation ev_cancel).2.1 [user_free] user_prem [] rfl rfl
      (by decide)
  · exact (C9_webhook_cancellation ev_other).1 [user_free, user_prem] (by decide)

/-- Helper: clearing the premium flag of the first account with a given
email preserves the premium-implies-expiry invariant pointwise. -/
theorem clear_premium_first_wf (email : String) :
    ∀ (users : List User), (∀ v ∈ users, premium_implies_expiry v) →
    ∀ u ∈ clear_premium_first email users, premium_implies_expiry u := by
  intro users
  induction users with
  | nil =>
    intro _ u hu
    simp [clear_premium_first] at hu
  | cons a tl ih =>
    intro h u hu
    by_cases ha : a.email = email
    · rw [clear_premium_first, if_pos ha] at hu
      rcases List.mem_cons.mp hu with h1 | h2
      · subst h1
        intro hpp
        cases hpp
      · exact h u (List.mem_cons_of_mem a h2)
    · rw [clear_premium_first, if_neg ha] at hu
      rcases List.mem_cons.mp hu with h1 | h2
      · have hx := h a (List.mem_cons_self a tl)
        rw [← h1] at hx
        exact hx
      · exact ih (fun v hv => h v (List.mem_cons_of_mem a hv)) u h2

/-- C10: the public operations preserve the invariant that a set premium
flag comes with a present expiry — signup creates the account with the
flag clear, the payment-success redirect sets the flag together with a
30-day expiry, the webhook only ever clears flags, and the quota
operations never touch the premium columns — and under that invariant
neither `can_search` nor `increment_search` reaches the `None > datetime`
comparison, so neither raises. -/
theorem C10_premium_invariant :
    (∀ email pw now, premium_implies_expiry (signup_user email pw now)) ∧
    (∀ u now, premium_implies_expiry (payment_success u now)) ∧
    (∀ users ev, (∀ v ∈ users, premium_implies_expiry v) →
      ∀ u ∈ stripe_webhook users ev, premium_implies_expiry u) ∧
    (∀ u now, premium_implies_expiry u →
      premium_implies_expiry (can_search u now).2 ∧ (can_search u now).1.isSome = true) ∧
    (∀ u now, premium_implies_expiry u →
      (increment_search u now).isSome = true ∧
      ∀ u', increment_search u now = some u' → premium_implies_expiry u') := by
  refine ⟨?_, ?_, ?_, ?_, ?_⟩
  · intro email pw now hpp
    cases hpp
  · intro u now hpp
    rfl
  · intro users ev h u hu
    unfold stripe_webhook at hu
    split at hu
    · exact clear_premium_first_wf ev.customer_email users h u hu
    · exact h u hu
  · intro u now hWF
    constructor
    · intro hpp
      by_cases hreset : u.last_search_reset.day < now.day
      · rw [can_search_snd_eq] at hpp ⊢
        rw [if_pos hreset] at hpp ⊢
        exact hWF hpp
      · rw [can_search_snd_eq] at hpp ⊢
        rw [if_neg hreset] at hpp ⊢
        exact hWF hpp
    · by_cases hreset : u.last_search_reset.day < now.day
      · rcases hq : u.is_premium
        · simp [can_search, hreset, hq]
        · rcases hep : u.premium_expires with _ | e
          · exact absurd (hWF hq) (by simp [hep])
          · rcases hlt : DateTime.lt now e <;> simp [can_search, hreset, hq, hep, hlt]
      · rcases hq : u.is_premium
        · simp [can_search, hreset, hq]
        · rcases hep : u.premium_expires with _ | e
          · exact absurd (hWF hq) (by simp [hep])
          · rcases hlt : DateTime.lt now e <;> simp [can_search, hreset, hq, hep, hlt]
  · intro u now hWF
    rcases hq : u.is_premium
    · refine ⟨by simp [increment_search, hq], fun u' hu' => ?_⟩
      simp [increment_search, hq] at hu'
      subst hu'
      intro hpp
      simp [hq] at hpp
    · rcases hep : u.premium_expires with _ | e
      · exact absurd (hWF hq) (by simp [hep])
      · constructor
        · rcases hlt : DateTime.lt now e <;> simp [increment_search, hq, hep, hlt]
        · intro u' hu'
          intro hpp
          rcases hlt : DateTime.lt now e
          · simp [increment_search, hq, hep, hlt] at hu'
            subst hu'
            simp [hep]
          · simp [increment_search, hq, hep, hlt] at hu'
            subst hu'
            simp [hep]

/-- Witness for C10: the concrete accounts above are all well-formed,
and the quota operations on the active-premium account neither raise nor
break the invariant. -/
theorem C10_witness :
    premium_implies_expiry (can_search user_prem now_same_day).2 ∧
    (can_search user_prem now_same_day).1.isSome = true ∧
    (increment_search user_prem now_same_day).isSome = true := by
  refine ⟨?_, ?_, ?_⟩
  · exact (C10_premium_invariant.2.2.2.1 user_prem now_same_day (by decide)).1
  · exact (C10_premium_invariant.2.2.2.1 user_prem now_same_day (by decide)).2
  · exact (C10_premium_invariant.2.2.2.2 user_prem now_same_day (by decide)).1
